import Mathlib

/-!
Verification of the ETL pipeline in `src/pipeline.py` (functions
`validar_schema_bruto` and `transformar_dados_paises`).

The PySpark dataframe pipeline is shallowly embedded: a dataframe is a
`List` of records, a Spark SQL `DataType` is an inductive mirroring the
types used by the source, `explode_outer` over a map column becomes
`explodeOuter` over an optional association list, and the `select` with
`coalesce` defaults (pipeline.py lines 120-131) becomes `mkRow`.
Numeric JSON values are modelled exactly: integers as `Int`, doubles as
`ℚ` (no floating-point arithmetic occurs in the pipeline — values are
only cast or defaulted, never combined).
-/

namespace Pipeline

/-- Spark SQL data types, restricted to the constructors appearing in
`pipeline.py` (imports on line 9 and `required_fields` on lines 84-93). -/
inductive DataType where
  | StringType
  | IntegerType
  | LongType
  | DoubleType
  | BooleanType
  | StructType (fields : List (String × DataType))
  | MapType (key : DataType) (value : DataType)
  | ArrayType (elem : DataType)

/-- Index of the outermost constructor of a `DataType`.  Python's
`isinstance(x, type(expected))` on Spark type objects compares exactly
the outermost class, ignoring element/field types. -/
def kindIndex : DataType → Nat
  | .StringType => 0
  | .IntegerType => 1
  | .LongType => 2
  | .DoubleType => 3
  | .BooleanType => 4
  | .StructType _ => 5
  | .MapType _ _ => 6
  | .ArrayType _ => 7

/-- `sameKind a b` models `isinstance(a, type(b))` for Spark type objects:
true iff the outermost constructors agree (pipeline.py line 101). -/
def sameKind (a b : DataType) : Bool :=
  kindIndex a == kindIndex b

/-- The `required_fields` dict of `validar_schema_bruto`
(pipeline.py lines 84-93), in Python dict insertion order. -/
def required_fields : List (String × DataType) :=
  [ ("name", .StructType [("common", .StringType), ("official", .StringType)]),
    ("currencies", .MapType .StringType
      (.StructType [("name", .StringType), ("symbol", .StringType)])),
    ("languages", .MapType .StringType .StringType),
    ("capital", .ArrayType .StringType),
    ("population", .IntegerType),
    ("area", .DoubleType),
    ("region", .StringType),
    ("subregion", .StringType) ]

/-- A dataframe schema: the `df_schema` dict of pipeline.py line 95,
as an association list field name → inferred data type. -/
def lookupField (schema : List (String × DataType)) (f : String) : Option DataType :=
  (schema.find? (fun p => p.1 == f)).map (·.2)

/-- The loop of `validar_schema_bruto` (pipeline.py lines 97-102): iterate
over the required fields; a missing field raises `TypeError` naming it
(modelled as `Except.error` carrying the field name); a present field
whose outermost type constructor differs from the expected one is added
to the warning log (modelled as the returned list of field names). -/
def validarAux : List (String × DataType) → List (String × DataType) → Except String (List String)
  | [], _ => .ok []
  | (f, t) :: rest, schema =>
    match lookupField schema f with
    | none => .error f
    | some obs =>
      match validarAux rest schema with
      | .error e => .error e
      | .ok ws => .ok (if sameKind obs t then ws else f :: ws)

/-- `validar_schema_bruto` (pipeline.py lines 81-104): validate a raw
schema against `required_fields`.  Returns the warned field names on
success, or the missing field's name as a fatal error. -/
def validar_schema_bruto (schema : List (String × DataType)) : Except String (List String) :=
  validarAux required_fields schema

/-- A scalar JSON value as it may appear in a raw column cell. -/
inductive JValue where
  | jint (n : Int)
  | jnum (q : ℚ)
  | jstr (s : String)
  | jbool (b : Bool)
deriving DecidableEq

/-- Wrap an unbounded integer into the signed 32-bit range: the
behaviour of Spark's non-ANSI `cast(IntegerType())` on a long value
(Java `(int)` narrowing). -/
def wrap32 (n : Int) : Int :=
  (n + 2 ^ 31) % 2 ^ 32 - 2 ^ 31

/-- Truncation of a rational toward zero (Java double-to-int semantics
before saturation); `Int.div` is T-division. -/
def ratTrunc (q : ℚ) : Int :=
  Int.tdiv q.num q.den

/-- Java `(int)` on a double saturates at the `Int32` bounds. -/
def truncSat32 (q : ℚ) : Int :=
  if q < -(2 ^ 31) then -(2 ^ 31)
  else if (2 ^ 31 - 1 : ℚ) < q then 2 ^ 31 - 1
  else ratTrunc q

def digitVal (c : Char) : Option Nat :=
  if c.isDigit then some (c.toNat - 48) else none

def parseNatAux : List Char → Nat → Option Nat
  | [], acc => some acc
  | c :: cs, acc =>
    match digitVal c with
    | some d => parseNatAux cs (acc * 10 + d)
    | none => none

/-- Parse a non-empty all-digit character list as a natural number. -/
def parseNatDigits (cs : List Char) : Option Nat :=
  if cs.isEmpty then none else parseNatAux cs 0

/-- Strip leading and trailing whitespace from a character list (the
`str.strip()` step of Spark string casts). -/
def trimChars (cs : List Char) : List Char :=
  ((cs.dropWhile (fun c => c.isWhitespace)).reverse.dropWhile
    (fun c => c.isWhitespace)).reverse

/-- Parse an optionally negated all-digit character list as an integer. -/
def parseIntChars : List Char → Option Int
  | '-' :: rest => (parseNatDigits rest).map (fun n => -(n : Int))
  | cs => (parseNatDigits cs).map (fun n => (n : Int))

/-- Parse an optionally signed decimal string (`[+-]digits[.digits]`) as a
rational; anything else fails.  Models Spark's string-to-double cast on
the plain-decimal fragment the pipeline can meet. -/
def parseDecimal (s : String) : Option ℚ :=
  let cs := trimChars s.toList
  let sign : ℚ × List Char :=
    match cs with
    | '-' :: rest => (-1, rest)
    | '+' :: rest => (1, rest)
    | _ => (1, cs)
  match (sign.2.span (fun c => c != '.')) with
  | (intPart, []) => (parseNatDigits intPart).map (fun n => sign.1 * n)
  | (intPart, _dot :: fracPart) =>
    match parseNatDigits intPart, parseNatDigits fracPart with
    | some n, some f =>
      some (sign.1 * ((n : ℚ) + (f : ℚ) / (10 ^ fracPart.length)))
    | _, _ => none

/-- Spark's non-ANSI `cast(IntegerType())` applied to one cell
(pipeline.py line 126): longs narrow with wraparound, doubles truncate
toward zero and saturate, integral strings parse (out-of-range fails to
null), booleans map to 0/1.  `none` models a SQL null result. -/
def castToInt : JValue → Option Int
  | .jint n => some (wrap32 n)
  | .jnum q => some (truncSat32 q)
  | .jstr s =>
    match parseIntChars (trimChars s.toList) with
    | some n => if -(2 ^ 31) ≤ n ∧ n < 2 ^ 31 then some n else none
    | none => none
  | .jbool b => some (if b then 1 else 0)

/-- Spark's non-ANSI `cast(DoubleType())` applied to one cell
(pipeline.py line 127). -/
def castToDouble : JValue → Option ℚ
  | .jint n => some n
  | .jnum q => some q
  | .jstr s => parseDecimal s
  | .jbool b => some (if b then 1 else 0)

/-- The nested `name` object of a raw record: `{common, official}`. -/
structure NameInfo where
  common : Option String
  official : Option String
deriving DecidableEq

/-- A value of the `currencies` map: `{name, symbol}`. -/
structure CurrencyInfo where
  name : Option String
  symbol : Option String
deriving DecidableEq

/-- One raw country record as read by `spark.read.json`
(pipeline.py line 111): every top-level field may be null; maps are
association lists; `population`/`area` cells carry whatever scalar the
JSON held. -/
structure RawRecord where
  name : Option NameInfo
  currencies : Option (List (String × CurrencyInfo))
  languages : Option (List (String × Option String))
  capital : Option (List String)
  population : Option JValue
  area : Option JValue
  region : Option String
  subregion : Option String
deriving DecidableEq

/-- One output row of the `select` on pipeline.py lines 120-130, fields
named after the aliases in the source. -/
structure FlatRow where
  nome_comum : String
  nome_oficial : String
  regiao : String
  sub_regiao : String
  capital : String
  populacao : Int
  area : ℚ
  moeda_codigo : String
  moeda_nome : String
  idioma : String
deriving DecidableEq

/-- `explode_outer` on a map column (pipeline.py lines 117-118): a null
or empty map yields one row with a null entry; otherwise one row per
entry. -/
def explodeOuter {α : Type} (m : Option (List α)) : List (Option α) :=
  match m with
  | none => [none]
  | some [] => [none]
  | some (x :: xs) => (x :: xs).map some

/-- The `select` with `coalesce` defaults (pipeline.py lines 120-130)
applied to one exploded row: `r` is the original record, `c` the current
`currencies_map` entry (null for the synthetic outer row), `l` the
current `languages_map` entry. -/
def mkRow (r : RawRecord) (c : Option (String × CurrencyInfo))
    (l : Option (String × Option String)) : FlatRow :=
  { nome_comum := (r.name.bind (·.common)).getD "N/A"
    nome_oficial := (r.name.bind (·.official)).getD "N/A"
    regiao := r.region.getD "N/A"
    sub_regiao := r.subregion.getD "N/A"
    capital := (r.capital.bind List.head?).getD "N/A"
    populacao := (r.population.bind castToInt).getD 0
    area := (r.area.bind castToDouble).getD 0
    moeda_codigo := (c.map Prod.fst).getD "N/A"
    moeda_nome := (c.bind (fun p => p.2.name)).getD "N/A"
    idioma := (l.bind Prod.snd).getD "N/A" }

/-- Per-record expansion of the Flattener (pipeline.py lines 117-130):
the two successive `explode_outer` `withColumn`s produce the Cartesian
product of the currency entries and the language entries, then each
product element is turned into one selected row. -/
def transformar (r : RawRecord) : List FlatRow :=
  (explodeOuter r.currencies).flatMap (fun c =>
    (explodeOuter r.languages).map (fun l => mkRow r c l))

/-- The Flattener over a whole record collection. -/
def flatten (records : List RawRecord) : List FlatRow :=
  records.flatMap transformar

/-- The Deduplicator: `.distinct()` on pipeline.py line 131, equality
over the full ten-field row. -/
def dedupe (rows : List FlatRow) : List FlatRow :=
  rows.dedup

/-- The invalid-population counter of pipeline.py lines 134-137:
`count_total - count_valid_population`, where the valid rows are those
passing the filter `populacao >= 0` on the final (distinct) table. -/
def contarInvalidos (rows : List FlatRow) : Nat :=
  rows.length - (rows.filter (fun r => 0 ≤ r.populacao)).length

/-- `transformar_dados_paises` (pipeline.py lines 107-140) without the
I/O shell: validate the inferred schema (a fatal error propagates),
explode and select each record, deduplicate, and compute the
invalid-population count that line 137 would log. -/
def transformar_dados_paises (schema : List (String × DataType))
    (records : List RawRecord) : Except String (List FlatRow × Nat) :=
  match validar_schema_bruto schema with
  | .error e => .error e
  | .ok _ws =>
    let rows := dedupe (flatten records)
    .ok (rows, contarInvalidos rows)

/-! ### Concrete inputs used by witnesses and counterexamples -/

/-- The end-to-end record of spec §8: Testland. -/
def recTest : RawRecord :=
  { name := some { common := some "Testland", official := some "Republic of Testland" }
    currencies := some [("TST", { name := some "Test Dollar", symbol := some "$" })]
    languages := some [("tst", some "Testish")]
    capital := some ["TestCity"]
    population := some (.jint 1000)
    area := some (.jnum (50.5 : ℚ))
    region := some "TestRegion"
    subregion := some "TestSub" }

/-- The single expected output row for `recTest`. -/
def rowTest : FlatRow :=
  { nome_comum := "Testland"
    nome_oficial := "Republic of Testland"
    regiao := "TestRegion"
    sub_regiao := "TestSub"
    capital := "TestCity"
    populacao := 1000
    area := (50.5 : ℚ)
    moeda_codigo := "TST"
    moeda_nome := "Test Dollar"
    idioma := "Testish" }

/-- A record with negative source population, one currency and two
languages (fan-out 2). -/
def recNeg : RawRecord :=
  { name := some { common := some "Negland", official := none }
    currencies := some [("NGC", { name := some "Neg Coin", symbol := none })]
    languages := some [("aa", some "LangA"), ("bb", some "LangB")]
    capital := none
    population := some (.jint (-5))
    area := none
    region := none
    subregion := none }

/-- A record with both multi-valued maps absent. -/
def recEmpty : RawRecord :=
  { name := none
    currencies := none
    languages := none
    capital := none
    population := none
    area := none
    region := none
    subregion := none }

/-- Three currency entries. -/
def cs32 : List (String × CurrencyInfo) :=
  [ ("AAA", { name := some "Alpha", symbol := none }),
    ("BBB", { name := some "Beta", symbol := none }),
    ("CCC", { name := some "Gamma", symbol := none }) ]

/-- Two language entries. -/
def ls32 : List (String × Option String) :=
  [("xx", some "Xish"), ("yy", some "Yish")]

/-- A record with 3 currencies and 2 languages. -/
def rec32 : RawRecord :=
  { name := some { common := some "Multiland", official := none }
    currencies := some cs32
    languages := some ls32
    capital := none
    population := none
    area := none
    region := none
    subregion := none }

/-- A record with an empty currencies map and a 2-entry languages map. -/
def recC5 : RawRecord :=
  { name := some { common := some "Nocurland", official := none }
    currencies := some []
    languages := some ls32
    capital := none
    population := none
    area := none
    region := none
    subregion := none }

/-- A record whose capital array has two entries. -/
def recCap : RawRecord :=
  { name := some { common := some "Capland", official := none }
    currencies := none
    languages := none
    capital := some ["A", "B"]
    population := none
    area := none
    region := none
    subregion := none }

/-- A record whose population and area cells are non-numeric strings, so
both casts fail. -/
def recBad : RawRecord :=
  { name := some { common := some "Badland", official := none }
    currencies := none
    languages := none
    capital := none
    population := some (.jstr "abc")
    area := some (.jstr "xyz")
    region := none
    subregion := none }

/-- A raw schema identical to the required one except that `region` is
missing at the top level. -/
def schemaMissingRegion : List (String × DataType) :=
  required_fields.filter (fun p => p.1 != "region")

/-- A raw schema identical to the required one except that `region` was
inferred as an integer instead of a string. -/
def schemaIntRegion : List (String × DataType) :=
  required_fields.map (fun p =>
    if p.1 == "region" then (p.1, DataType.IntegerType) else p)

/-- A raw schema identical to the required one except that `currencies`
was inferred as a map of strings: correct outer constructor `MapType`,
wrong inner value type. -/
def schemaWrongInner : List (String × DataType) :=
  required_fields.map (fun p =>
    if p.1 == "currencies" then (p.1, DataType.MapType .StringType .StringType) else p)

/-! ### Helper lemmas -/

theorem explodeOuter_length_pos {α : Type} (m : Option (List α)) :
    0 < (explodeOuter m).length := by
  cases m with
  | none => simp [explodeOuter]
  | some l => cases l <;> simp [explodeOuter]

theorem transformar_length (r : RawRecord) :
    (transformar r).length
      = (explodeOuter r.currencies).length * (explodeOuter r.languages).length := by
  unfold transformar
  induction explodeOuter r.currencies with
  | nil => simp
  | cons c cs ih =>
    simp only [List.flatMap_cons, List.length_append, List.length_map,
      List.length_cons, ih]
    ring

theorem mem_transformar {r : RawRecord} {row : FlatRow} :
    row ∈ transformar r ↔
      ∃ c ∈ explodeOuter r.currencies, ∃ l ∈ explodeOuter r.languages,
        row = mkRow r c l := by
  simp [transformar, List.mem_flatMap, List.mem_map, eq_comm]

/-- On a present field, `mismatchB` is the warning condition of
pipeline.py line 101. -/
def mismatchB (schema : List (String × DataType)) (p : String × DataType) : Bool :=
  match lookupField schema p.1 with
  | some obs => !sameKind obs p.2
  | none => false

theorem validarAux_ok (req schema : List (String × DataType))
    (h : ∀ p ∈ req, (lookupField schema p.1).isSome) :
    validarAux req schema = .ok ((req.filter (mismatchB schema)).map Prod.fst) := by
  induction req with
  | nil => rfl
  | cons p rest ih =>
    obtain ⟨f, t⟩ := p
    obtain ⟨obs, hobs⟩ :=
      Option.isSome_iff_exists.mp (h (f, t) (List.mem_cons_self _ _))
    have ih' := ih (fun q hq => h q (List.mem_cons_of_mem _ hq))
    cases hk : sameKind obs t <;>
      simp [validarAux, hobs, ih', List.filter_cons, mismatchB, hk]

theorem validarAux_missing (req schema : List (String × DataType))
    (h : ∃ p ∈ req, lookupField schema p.1 = none) :
    ∃ g, validarAux req schema = .error g
      ∧ (∃ t, (g, t) ∈ req) ∧ lookupField schema g = none := by
  induction req with
  | nil => simp at h
  | cons p rest ih =>
    obtain ⟨f, t⟩ := p
    cases hf : lookupField schema f with
    | none =>
      exact ⟨f, by simp [validarAux, hf], ⟨t, List.mem_cons_self _ _⟩, hf⟩
    | some obs =>
      have hrest : ∃ q ∈ rest, lookupField schema q.1 = none := by
        obtain ⟨q, hq, hqn⟩ := h
        rcases List.mem_cons.mp hq with hq | hq
        · exfalso
          rw [hq] at hqn
          simp only at hqn
          rw [hqn] at hf
          exact Option.noConfusion hf
        · exact ⟨q, hq, hqn⟩
      obtain ⟨g, hg, ⟨tg, htg⟩, hgn⟩ := ih hrest
      exact ⟨g, by simp [validarAux, hf, hg], ⟨tg, List.mem_cons_of_mem _ htg⟩, hgn⟩

theorem keyed_mem_unique :
    ∀ {l : List (String × DataType)} {f : String} {a b : DataType},
      (l.map Prod.fst).Nodup → (f, a) ∈ l → (f, b) ∈ l → a = b := by
  intro l
  induction l with
  | nil =>
    intro f a b _ ha _
    simp at ha
  | cons x xs ih =>
    intro f a b hnd ha hb
    rw [List.map_cons, List.nodup_cons] at hnd
    rcases List.mem_cons.mp ha with ha | ha <;> rcases List.mem_cons.mp hb with hb | hb
    · have hab : (f, a) = (f, b) := ha.trans hb.symm
      exact congrArg Prod.snd hab
    · exfalso
      apply hnd.1
      have hf : x.1 = f := by rw [← ha]
      rw [hf]
      exact List.mem_map.mpr ⟨(f, b), hb, rfl⟩
    · exfalso
      apply hnd.1
      have hf : x.1 = f := by rw [← hb]
      rw [hf]
      exact List.mem_map.mpr ⟨(f, a), ha, rfl⟩
    · exact ih hnd.2 ha hb

theorem required_keys_nodup : (required_fields.map Prod.fst).Nodup := by
  decide

theorem contarInvalidos_eq_countP (rows : List FlatRow) :
    contarInvalidos rows = rows.countP (fun row => decide (row.populacao < 0)) := by
  induction rows with
  | nil => rfl
  | cons x xs ih =>
    have hle := List.length_filter_le (fun r => decide (0 ≤ r.populacao)) xs
    unfold contarInvalidos at ih ⊢
    rw [List.filter_cons, List.countP_cons]
    by_cases h : 0 ≤ x.populacao
    · have h2 : ¬ x.populacao < 0 := not_lt.mpr h
      simp [h, h2]
      omega
    · have h2 : x.populacao < 0 := lt_of_not_ge h
      simp [h, h2]
      omega

theorem wrap32_eq_self {v : Int} (hlo : -(2 ^ 31) ≤ v) (hhi : v < 2 ^ 31) :
    wrap32 v = v := by
  unfold wrap32
  omega

/-! ### Claim theorems -/

/-- Claim C2: for every raw schema, whenever a required top-level field is
absent from the inferred structure, `validar_schema_bruto` raises a fatal
structural error naming a required field that is indeed absent; and when
every required field is present, it does not raise — it returns the
warning log, in which every present field whose outermost inferred type
constructor disagrees with its expected one is named, and the pipeline
proceeds. -/
theorem C2_validation (schema : List (String × DataType)) :
    ((∃ p ∈ required_fields, lookupField schema p.1 = none) →
      ∃ g, validar_schema_bruto schema = .error g
        ∧ (∃ t, (g, t) ∈ required_fields) ∧ lookupField schema g = none)
    ∧ ((∀ p ∈ required_fields, (lookupField schema p.1).isSome) →
      ∃ ws, validar_schema_bruto schema = .ok ws
        ∧ ∀ p ∈ required_fields, ∀ obs, lookupField schema p.1 = some obs →
            sameKind obs p.2 = false → p.1 ∈ ws) := by
  constructor
  · intro h
    exact validarAux_missing required_fields schema h
  · intro h
    refine ⟨_, validarAux_ok required_fields schema h, ?_⟩
    intro p hp obs hobs hmk
    refine List.mem_map.mpr ⟨p, List.mem_filter.mpr ⟨hp, ?_⟩, rfl⟩
    simp [mismatchB, hobs, hmk]

/-- Witness for C2: with `region` missing the validator fails naming an
absent required field, and with `region` inferred as integer it returns a
warning log containing "region". -/
theorem C2_validation_witness :
    (∃ g, validar_schema_bruto schemaMissingRegion = .error g
      ∧ (∃ t, (g, t) ∈ required_fields) ∧ lookupField schemaMissingRegion g = none)
    ∧ ∃ ws, validar_schema_bruto schemaIntRegion = .ok ws ∧ "region" ∈ ws := by
  constructor
  · exact (C2_validation schemaMissingRegion).1
      ⟨("region", .StringType), by simp [required_fields], rfl⟩
  · obtain ⟨ws, hok, hmem⟩ := (C2_validation schemaIntRegion).2 (by decide)
    exact ⟨ws, hok,
      hmem ("region", .StringType) (by simp [required_fields]) .IntegerType rfl rfl⟩

/-- Claim C10: the validator's shape check is shallow.  For every raw
schema in which all required fields are present, and every required field
whose inferred type has the correct outermost constructor (regardless of
inner types), `validar_schema_bruto` does not raise and its warning log
does not name that field. -/
theorem C10_shallow_shape_check (schema : List (String × DataType))
    (hall : ∀ p ∈ required_fields, (lookupField schema p.1).isSome)
    (f : String) (texp t : DataType)
    (hmem : (f, texp) ∈ required_fields)
    (hlook : lookupField schema f = some t)
    (hkind : sameKind t texp = true) :
    ∃ ws, validar_schema_bruto schema = .ok ws ∧ f ∉ ws := by
  refine ⟨_, validarAux_ok required_fields schema hall, ?_⟩
  intro hmemws
  obtain ⟨q, hqf, hq1⟩ := List.mem_map.mp hmemws
  obtain ⟨hq, hmis⟩ := List.mem_filter.mp hqf
  obtain ⟨qf, qt⟩ := q
  simp only at hq1
  subst hq1
  have hq2 : qt = texp := keyed_mem_unique required_keys_nodup hq hmem
  subst hq2
  simp [mismatchB, hlook, hkind] at hmis

/-- Witness for C10: `currencies` inferred as a map of strings (right
outer constructor `MapType`, wrong inner value type) produces neither an
error nor a warning naming "currencies". -/
theorem C10_shallow_shape_check_witness :
    ∃ ws, validar_schema_bruto schemaWrongInner = .ok ws ∧ "currencies" ∉ ws :=
  C10_shallow_shape_check schemaWrongInner (by decide) "currencies"
    (.MapType .StringType
      (.StructType [("name", .StringType), ("symbol", .StringType)]))
    (.MapType .StringType .StringType)
    (by simp [required_fields]) rfl rfl

/-- Claim C3: every record (all representable records are non-malformed)
produces at least one output row under the per-record expansion, because
an empty or absent currencies or languages map is replaced by the single
synthetic null entry `[none]` — an outer expansion that never drops the
record. -/
theorem C3_outer_expansion_guarantee (r : RawRecord) :
    1 ≤ (transformar r).length
    ∧ ((r.currencies = none ∨ r.currencies = some []) →
        explodeOuter r.currencies = [none])
    ∧ ((r.languages = none ∨ r.languages = some []) →
        explodeOuter r.languages = [none]) := by
  refine ⟨?_, ?_, ?_⟩
  · rw [transformar_length]
    exact Nat.mul_pos (explodeOuter_length_pos _) (explodeOuter_length_pos _)
  · rintro (h | h) <;> simp [h, explodeOuter]
  · rintro (h | h) <;> simp [h, explodeOuter]

/-- Witness for C3 at the record with both maps absent. -/
theorem C3_outer_expansion_guarantee_witness :
    1 ≤ (transformar recEmpty).length
    ∧ explodeOuter recEmpty.currencies = [none]
    ∧ explodeOuter recEmpty.languages = [none] :=
  ⟨(C3_outer_expansion_guarantee recEmpty).1,
   (C3_outer_expansion_guarantee recEmpty).2.1 (Or.inl rfl),
   (C3_outer_expansion_guarantee recEmpty).2.2 (Or.inl rfl)⟩

/-- Claim C4: a record with `m ≥ 1` currency entries and `n ≥ 1` language
entries expands to exactly `m * n` rows — the Cartesian product of the
two entry sets. -/
theorem C4_cartesian_fanout (r : RawRecord) (cs : List (String × CurrencyInfo))
    (ls : List (String × Option String))
    (hc : r.currencies = some cs) (hl : r.languages = some ls)
    (hcs : 1 ≤ cs.length) (hls : 1 ≤ ls.length) :
    (transformar r).length = cs.length * ls.length := by
  rw [transformar_length, hc, hl]
  obtain ⟨c, cs', rfl⟩ : ∃ c cs', cs = c :: cs' := by
    cases cs with
    | nil => simp at hcs
    | cons c cs' => exact ⟨c, cs', rfl⟩
  obtain ⟨l, ls', rfl⟩ : ∃ l ls', ls = l :: ls' := by
    cases ls with
    | nil => simp at hls
    | cons l ls' => exact ⟨l, ls', rfl⟩
  simp [explodeOuter]

/-- Witness for C4: 3 currencies and 2 languages yield 3 × 2 = 6 rows. -/
theorem C4_cartesian_fanout_witness :
    (transformar rec32).length = cs32.length * ls32.length
    ∧ cs32.length * ls32.length = 6 :=
  ⟨C4_cartesian_fanout rec32 cs32 ls32 rfl rfl (by decide) (by decide),
   by decide⟩

/-- Claim C5: a record with an empty currencies map and exactly two
language entries expands to exactly 2 rows, and every one of its rows has
currency code "N/A" and currency name "N/A". -/
theorem C5_empty_currencies (r : RawRecord) (ls : List (String × Option String))
    (hc : r.currencies = some []) (hl : r.languages = some ls)
    (h2 : ls.length = 2) :
    (transformar r).length = 2
    ∧ ∀ row ∈ transformar r, row.moeda_codigo = "N/A" ∧ row.moeda_nome = "N/A" := by
  constructor
  · rw [transformar_length, hc, hl]
    obtain ⟨a, b, rfl⟩ : ∃ a b, ls = [a, b] := by
      cases ls with
      | nil => simp at h2
      | cons a ls' =>
        cases ls' with
        | nil => simp at h2
        | cons b ls'' =>
          cases ls'' with
          | nil => exact ⟨a, b, rfl⟩
          | cons c ls''' => simp at h2
    simp [explodeOuter]
  · intro row hrow
    obtain ⟨c, hcmem, l, hlmem, rfl⟩ := mem_transformar.mp hrow
    rw [hc] at hcmem
    simp only [explodeOuter, List.mem_singleton] at hcmem
    subst hcmem
    simp [mkRow]

/-- Witness for C5 at a concrete record. -/
theorem C5_empty_currencies_witness :
    (transformar recC5).length = 2
    ∧ ∀ row ∈ transformar recC5, row.moeda_codigo = "N/A" ∧ row.moeda_nome = "N/A" :=
  C5_empty_currencies recC5 ls32 rfl rfl rfl

/-- Claim C6: in every output row of a record, the capital column is the
first element of the capital array when it is present and non-empty, and
"N/A" when the field is absent or the array empty; entries of the capital
array beyond index 0 never influence the output. -/
theorem C6_capital_head (r : RawRecord) :
    (∀ c cs, r.capital = some (c :: cs) →
      ∀ row ∈ transformar r, row.capital = c)
    ∧ ((r.capital = none ∨ r.capital = some []) →
      ∀ row ∈ transformar r, row.capital = "N/A")
    ∧ (∀ c t₁ t₂, transformar { r with capital := some (c :: t₁) }
        = transformar { r with capital := some (c :: t₂) }) := by
  refine ⟨?_, ?_, ?_⟩
  · intro c cs h row hrow
    obtain ⟨cc, _, l, _, rfl⟩ := mem_transformar.mp hrow
    simp [mkRow, h]
  · rintro (h | h) row hrow <;>
      obtain ⟨cc, _, l, _, rfl⟩ := mem_transformar.mp hrow <;>
      simp [mkRow, h]
  · intro c t₁ t₂
    simp [transformar, mkRow]

/-- Witness for C6 at a record whose capital array is ["A", "B"]. -/
theorem C6_capital_head_witness :
    (∀ row ∈ transformar recCap, row.capital = "A")
    ∧ transformar { recCap with capital := some ("A" :: ["B"]) }
        = transformar { recCap with capital := some ("A" :: []) } :=
  ⟨(C6_capital_head recCap).1 "A" ["B"] rfl,
   (C6_capital_head recCap).2.2 "A" ["B"] []⟩

/-- Claim C7: a failed or impossible cast (population to integer, area to
double) only degrades that one field to its default (0 / 0.0); the record
is never aborted — it still produces its rows, and those rows are exactly
the rows the record would produce with that field absent (all other
fields computed normally). -/
theorem C7_cast_failure_degrades_field (r : RawRecord) :
    transformar r ≠ []
    ∧ (r.population.bind castToInt = none →
        (∀ row ∈ transformar r, row.populacao = 0)
        ∧ transformar r = transformar { r with population := none })
    ∧ (r.area.bind castToDouble = none →
        (∀ row ∈ transformar r, row.area = 0)
        ∧ transformar r = transformar { r with area := none }) := by
  refine ⟨?_, ?_, ?_⟩
  · have hpos : 0 < (transformar r).length := by
      rw [transformar_length]
      exact Nat.mul_pos (explodeOuter_length_pos _) (explodeOuter_length_pos _)
    exact List.ne_nil_of_length_pos hpos
  · intro h
    constructor
    · intro row hrow
      obtain ⟨c, _, l, _, rfl⟩ := mem_transformar.mp hrow
      simp [mkRow, h]
    · simp [transformar, mkRow, h]
  · intro h
    constructor
    · intro row hrow
      obtain ⟨c, _, l, _, rfl⟩ := mem_transformar.mp hrow
      simp [mkRow, h]
    · simp [transformar, mkRow, h]

/-- Witness for C7 at a record whose population cell is the string "abc"
and whose area cell is the string "xyz": both casts fail, both fields
default, the record still yields its row. -/
theorem C7_cast_failure_degrades_field_witness :
    transformar recBad ≠ []
    ∧ ((∀ row ∈ transformar recBad, row.populacao = 0)
        ∧ transformar recBad = transformar { recBad with population := none })
    ∧ ((∀ row ∈ transformar recBad, row.area = 0)
        ∧ transformar recBad = transformar { recBad with area := none }) :=
  ⟨(C7_cast_failure_degrades_field recBad).1,
   (C7_cast_failure_degrades_field recBad).2.1 (by decide),
   (C7_cast_failure_degrades_field recBad).2.2 (by decide)⟩

/-- Counterexample to claim C1 as stated: `recNeg` has source population
-5; its deduplicated output rows keep population -5 (not the default 0),
and the invalid-population counter counts 2 for this single record (one
per distinct fanned-out row), not exactly one. -/
theorem C1_counterexample_negative_population :
    recNeg.population = some (.jint (-5))
    ∧ dedupe (transformar recNeg) ≠ []
    ∧ (∀ row ∈ dedupe (transformar recNeg), row.populacao = -5)
    ∧ ¬ (∀ row ∈ dedupe (transformar recNeg), row.populacao = 0)
    ∧ contarInvalidos (dedupe (transformar recNeg)) = 2 := by
  refine ⟨rfl, by decide, by decide, by decide, by decide⟩

/-- Claim C1 amended: a record whose source population is a negative
(32-bit-representable) integer is not dropped — every one of its output
rows carries the negative source value unchanged, not the default 0 — and
the run's "invalid population" count equals the number of rows of the
final table whose population is negative (so one per distinct output row
of such a record, not one per record). -/
theorem C1_negative_population_amended (r : RawRecord) (v : Int)
    (hp : r.population = some (.jint v))
    (hlo : -(2 ^ 31) ≤ v) (hneg : v < 0) :
    (transformar r ≠ [] ∧ ∀ row ∈ transformar r, row.populacao = v)
    ∧ ∀ rows : List FlatRow,
        contarInvalidos rows = rows.countP (fun row => decide (row.populacao < 0)) := by
  refine ⟨⟨?_, ?_⟩, contarInvalidos_eq_countP⟩
  · have hpos : 0 < (transformar r).length := by
      rw [transformar_length]
      exact Nat.mul_pos (explodeOuter_length_pos _) (explodeOuter_length_pos _)
    exact List.ne_nil_of_length_pos hpos
  · intro row hrow
    obtain ⟨c, _, l, _, rfl⟩ := mem_transformar.mp hrow
    have hw : wrap32 v = v := wrap32_eq_self hlo (by omega)
    simp [mkRow, hp, castToInt, hw]

/-- Witness for the amended C1 at `recNeg`. -/
theorem C1_negative_population_amended_witness :
    (transformar recNeg ≠ [] ∧ ∀ row ∈ transformar recNeg, row.populacao = -5)
    ∧ contarInvalidos (dedupe (transformar recNeg))
        = (dedupe (transformar recNeg)).countP (fun row => decide (row.populacao < 0)) :=
  ⟨(C1_negative_population_amended recNeg (-5) rfl (by decide) (by decide)).1,
   (C1_negative_population_amended recNeg (-5) rfl (by decide) (by decide)).2
     (dedupe (transformar recNeg))⟩

/-- Claim C8: deduplication is idempotent — applying `dedupe` to
`flatten R` twice yields the same table as applying it once, under full
ten-field row equality. -/
theorem C8_dedupe_idempotent (R : List RawRecord) :
    dedupe (dedupe (flatten R)) = dedupe (flatten R) :=
  List.dedup_idem

/-- Claim C9: end to end, the single complete Testland record, validated
against the expected schema, produces exactly one output row with exactly
the specified ten field values (and a zero invalid-population count). -/
theorem C9_end_to_end :
    transformar_dados_paises required_fields [recTest] = .ok ([rowTest], 0) := by
  rfl

end Pipeline
